import Mathlib

/-!
Shallow embedding of the flow-orchestration core of the anxiety-support-bot
repository, together with proofs about the claims made by its specification.

Conventions of the embedding:
* Python strings are Lean `String`s; the case-insensitive matching of the
  source is modelled by lowering the text with `Char.toLower` per character,
  which agrees with `str.lower()` on the ASCII phrases involved.
* Python dicts used as replies are modelled as structures whose `Option`
  fields record presence or absence of the corresponding dict key, so that
  `d.get(k, default)` becomes `Option.getD`.
* Wall-clock data (timestamps, durations) and the RAG usage counters
  (`content_retrievals`, `dynamic_content_used`, `personalization_applied`,
  logging) are omitted: no verified claim depends on them and they do not
  feed back into control flow.
* The retrieval service (`ContentRetriever`) is an external collaborator; it
  is modelled as a parameter supplying the content strings, and the outcome
  of the crisis-resource lookup in `activate_crisis_override` as an
  `Except Unit` value (`error` = the `except` branch of the `try` block).
-/

namespace AnxietyBot

/-! ## Word-boundary phrase matching (src/src/safety/crisis_detector.py)

The detector compiles each phrase list into a regex of the shape
`\b(p1|p2|...)\b` and runs `re.findall` over the lowered text.  Every phrase
in the lists begins and ends with a word character, so the boundary
assertions amount to: the character before the match (if any) and the
character after the match (if any) are not word characters. -/

/-- Python regex `\w` on the lowered ASCII phrases: letter, digit or underscore. -/
def isWordChar (c : Char) : Bool := c.isAlphanum || c == '_'

/-- Does the list `t` start with the list `p`? -/
def listStartsWith : List Char → List Char → Bool
  | _, [] => true
  | [], _ :: _ => false
  | c :: cs, p :: ps => c == p && listStartsWith cs ps

/-- The `\b` assertion after a phrase ending in a word character: end of text
or a non-word character next. -/
def boundaryOk : List Char → Bool
  | [] => true
  | c :: _ => !isWordChar c

/-- A whole-word occurrence of `p` at the current position of `t`, where
`prev` records whether the character immediately before the position is a
word character. -/
def matchAt (prev : Bool) (t p : List Char) : Bool :=
  !prev && listStartsWith t p && boundaryOk (t.drop p.length)

/-- Scan `t` from left to right for a whole-word occurrence of `p`. -/
def phraseSearch (p : List Char) : Bool → List Char → Bool
  | prev, [] => matchAt prev [] p
  | prev, c :: cs => matchAt prev (c :: cs) p || phraseSearch p (isWordChar c) cs

/-- Lower-case a string character by character (`str.lower()` on ASCII text). -/
def lowerStr (s : String) : String := String.mk (s.toList.map Char.toLower)

/-- `re.findall(r"\b(" + phrase + r")\b", text_lower)` is non-empty. -/
def phraseFound (textLower : String) (phrase : String) : Bool :=
  phraseSearch phrase.toList false textLower.toList

/-! ## Crisis detector data (CrisisDetector.__init__) -/

/-- High-risk phrase tiers; each regex alternation of the source is expanded
into its list of alternative phrases. -/
def high_risk_patterns : List (String × List String) :=
  [("suicidal_ideation",
     ["want to die", "wanna die", "wish i was dead",
      "kill myself", "killing myself", "end my life",
      "suicide", "suicidal thoughts", "suicidal",
      "better off dead", "world better without me",
      "no point living", "no reason to live"]),
   ("self_harm",
     ["cut myself", "cutting myself", "hurt myself",
      "harm myself", "harming myself", "self harm", "self-harm"]),
   ("hopelessness",
     ["can\x27t go on", "cannot go on", "give up",
      "hopeless", "no hope", "nothing left",
      "end it all", "ending it all"])]

/-- Medium-risk phrase tier. -/
def medium_risk_patterns : List (String × List String) :=
  [("severe_distress",
     ["can\x27t take it anymore", "cannot take it",
      "overwhelmed", "breaking down", "falling apart",
      "desperate", "desperation"])]

/-- The `(category, pattern)` pairs whose pattern occurs in the lowered text.
The source collects every regex occurrence; only which phrases matched is
retained here, which determines the crisis level and the category set
identically. -/
def findRisk (pats : List (String × List String)) (textLower : String) :
    List (String × String) :=
  pats.flatMap fun cp =>
    (cp.2.filter fun p => phraseFound textLower p).map fun p => (cp.1, p)

/-- Result dictionary of `CrisisDetector.detect_crisis_level`.  The float
`confidence` of the source is carried as a rational. -/
structure CrisisResult where
  crisis_level : String
  patterns_found : List (String × String)
  categories : List String
  recommended_action : String
  confidence : ℚ
deriving Repr, DecidableEq

/-- `CrisisDetector.detect_crisis_level`.  Python builds the category list as
`list(set(...))`, whose order is unspecified; here the first-occurrence order
given by `List.dedup` is fixed, which is equal as a set. -/
def detect_crisis_level (text : String) : CrisisResult :=
  let text_lower := lowerStr text
  let high_risk_found := findRisk high_risk_patterns text_lower
  let medium_risk_found := findRisk medium_risk_patterns text_lower
  let found := high_risk_found ++ medium_risk_found
  if !high_risk_found.isEmpty then
    { crisis_level := "high", patterns_found := found,
      categories := (found.map Prod.fst).dedup,
      recommended_action := "immediate_intervention", confidence := 9/10 }
  else if !medium_risk_found.isEmpty then
    { crisis_level := "medium", patterns_found := found,
      categories := (found.map Prod.fst).dedup,
      recommended_action := "elevated_support", confidence := 3/5 }
  else
    { crisis_level := "none", patterns_found := found,
      categories := (found.map Prod.fst).dedup,
      recommended_action := "continue", confidence := 0 }

/-- Module-level `detect_crisis_keywords`: crisis iff level high or medium. -/
def detect_crisis_keywords (text : String) : Bool :=
  (["high", "medium"] : List String).contains (detect_crisis_level text).crisis_level

/-- Some phrase of the tier occurs (whole-word) in the lowered text. -/
def anyRiskMatch (pats : List (String × List String)) (textLower : String) : Bool :=
  pats.any fun cp => cp.2.any fun p => phraseFound textLower p

/-! ## Rating extraction (AcuteAnxietyFlow.extract_anxiety_rating)

`re.findall(r"\b([1-9]|10)\b", user_input)` followed by `int(numbers[0])`,
then a substring check of the English number words in dict insertion order.
At a given start position the regex engine first tries the `[1-9]`
alternative (which succeeds only if the following character is not a word
character) and then `10`; the scan takes the leftmost matching position. -/

/-- A digit character between 1 and 9. -/
def isDigit19 (c : Char) : Bool := '1' ≤ c && c ≤ '9'

/-- Numeric value of a digit character. -/
def digitVal (c : Char) : Nat := c.toNat - '0'.toNat

/-- Leftmost whole-word token `1`..`9` or `10` in the text; `prev` records
whether the previous character is a word character. -/
def findDigitToken : Bool → List Char → Option Nat
  | _, [] => none
  | prev, c :: cs =>
    if !prev && isDigit19 c then
      match cs with
      | [] => some (digitVal c)
      | d :: ds =>
        if !isWordChar d then some (digitVal c)
        else if c == '1' && d == '0' && boundaryOk ds then some 10
        else findDigitToken (isWordChar c) cs
    else findDigitToken (isWordChar c) cs

/-- Plain substring containment, Python `p in t`. -/
def containsSub (p : List Char) : List Char → Bool
  | [] => listStartsWith [] p
  | c :: cs => listStartsWith (c :: cs) p || containsSub p cs

/-- The `word_ratings` dict in its insertion order. -/
def word_ratings : List (String × Nat) :=
  [("one", 1), ("two", 2), ("three", 3), ("four", 4), ("five", 5),
   ("six", 6), ("seven", 7), ("eight", 8), ("nine", 9), ("ten", 10)]

/-- `AcuteAnxietyFlow.extract_anxiety_rating`: digit tokens first, then the
first number word (in dict order) contained in the lowered input. -/
def extract_anxiety_rating (user_input : String) : Option Nat :=
  match findDigitToken false user_input.toList with
  | some n => some n
  | none =>
    (word_ratings.find? fun wr =>
      containsSub wr.1.toList (lowerStr user_input).toList).map Prod.snd

/-! ## Step specifications (the `clinical_steps` list of each flow class) -/

/-- One entry of a `clinical_steps` list. -/
structure StepSpec where
  intervention : String
  step_type : String
  requires_input : Bool
deriving Repr, DecidableEq

/-- `AcuteAnxietyFlow.clinical_steps` (scenario `panic`). -/
def acute_anxiety_steps : List StepSpec :=
  [⟨"safety_assessment", "reassurance", true⟩,
   ⟨"psychoeducation", "education", false⟩,
   ⟨"4_7_8_breathing", "technique", true⟩,
   ⟨"5_4_3_2_1_grounding", "technique", true⟩,
   ⟨"progressive_muscle_relaxation", "technique", true⟩,
   ⟨"clinical_reassurance", "reassurance", false⟩,
   ⟨"effectiveness_assessment", "effectiveness_check", true⟩]

/-- `NighttimeFlow.clinical_steps` (scenario `sleep`). -/
def nighttime_steps : List StepSpec :=
  [⟨"sleep_assessment", "assessment", true⟩,
   ⟨"sleep_psychoeducation", "education", false⟩,
   ⟨"cognitive_restructuring", "technique", true⟩,
   ⟨"body_scan_relaxation", "technique", true⟩,
   ⟨"sleep_hygiene", "technique", true⟩,
   ⟨"20_minute_rule", "education", false⟩,
   ⟨"effectiveness_check", "assessment", true⟩]

/-- `PreEventFlow.clinical_steps` (scenario `pre_event`). -/
def pre_event_steps : List StepSpec :=
  [⟨"event_assessment", "assessment", true⟩,
   ⟨"normalization", "reassurance", false⟩,
   ⟨"preparation_checklist", "technique", true⟩,
   ⟨"visualization", "technique", true⟩,
   ⟨"confidence_affirmations", "technique", true⟩,
   ⟨"post_event_planning", "technique", true⟩]

/-- `IsolationFlow.clinical_steps` (scenario `isolation`). -/
def isolation_steps : List StepSpec :=
  [⟨"loneliness_validation", "reassurance", true⟩,
   ⟨"safety_assessment", "safety_check", true⟩,
   ⟨"loneliness_psychoeducation", "education", false⟩,
   ⟨"self_compassion_exercise", "technique", true⟩,
   ⟨"connection_inventory", "technique", true⟩,
   ⟨"small_connection_step", "technique", true⟩,
   ⟨"self_care_planning", "technique", true⟩]

/-- `UncertaintyFlow.clinical_steps` (scenario `uncertainty`). -/
def uncertainty_steps : List StepSpec :=
  [⟨"uncertainty_assessment", "assessment", true⟩,
   ⟨"uncertainty_normalization", "reassurance", false⟩,
   ⟨"worry_vs_problem_solving", "technique", true⟩,
   ⟨"worry_time_technique", "technique", false⟩,
   ⟨"uncertainty_tolerance", "technique", true⟩,
   ⟨"present_moment_grounding", "technique", true⟩,
   ⟨"coping_confidence", "reassurance", true⟩]

/-- `DecisionMakingFlow.clinical_steps` (scenario `decision_making`). -/
def decision_making_steps : List StepSpec :=
  [⟨"decision_assessment", "reassurance", true⟩,
   ⟨"perfectionism_check", "reassurance", true⟩,
   ⟨"decision_framework", "technique", true⟩,
   ⟨"values_clarification", "education", true⟩,
   ⟨"good_enough_principle", "technique", false⟩,
   ⟨"time_limit_technique", "education", true⟩,
   ⟨"decision_confidence", "reassurance", true⟩]

/-- `PhysicalTriggersFlow.clinical_steps` (scenario `physical_triggers`). -/
def physical_triggers_steps : List StepSpec :=
  [⟨"trigger_assessment", "assessment", true⟩,
   ⟨"trigger_validation", "reassurance", false⟩,
   ⟨"body_awareness", "technique", true⟩,
   ⟨"trigger_differentiation", "education", true⟩,
   ⟨"immediate_modifications", "technique", true⟩,
   ⟨"grounding_through_body", "technique", true⟩,
   ⟨"trigger_prevention", "technique", true⟩]

/-- `GeneralAnxietyFlow.clinical_steps` (scenario `general_anxiety`). -/
def general_anxiety_steps : List StepSpec :=
  [⟨"emotion_check_in", "assessment", true⟩,
   ⟨"psychoeducation_general", "education", false⟩,
   ⟨"coping_options", "technique", true⟩,
   ⟨"reflection", "reassurance", false⟩,
   ⟨"effectiveness_review", "effectiveness_check", true⟩]

/-- The step sequence of every scenario flow class of the registry, keyed by
the `scenario` attribute the class passes to the base constructor. -/
def scenario_step_sequences : List (String × List StepSpec) :=
  [("panic", acute_anxiety_steps),
   ("sleep", nighttime_steps),
   ("pre_event", pre_event_steps),
   ("isolation", isolation_steps),
   ("uncertainty", uncertainty_steps),
   ("decision_making", decision_making_steps),
   ("physical_triggers", physical_triggers_steps),
   ("general_anxiety", general_anxiety_steps)]

/-! ## Reply and state structures (src/src/flows/base_flow.py)

Replies are Python dicts with varying key sets; an `Option` field value
`none` means the key is absent from the dict. -/

/-- One entry of a `crisis_resources` list.  The base flow uses the keys
`name`, `contact`, `available`; the manager uses `name`, `contact`,
`description`, `priority`; RAG-derived extras use `name`, `description`,
`source`. -/
structure CrisisResource where
  name : String
  contact : Option String := none
  available : Option String := none
  description : Option String := none
  priority : Option String := none
  source : Option String := none
deriving Repr, DecidableEq

/-- One entry of `state.effectiveness_ratings` (timestamp omitted). -/
structure RatingRecord where
  rating : Nat
  intervention_phase : Option String := none
deriving Repr, DecidableEq

/-- One entry of `state.user_responses` (timestamp omitted). -/
structure ResponseRecord where
  input : String
  safety_screened : Bool
  step_intervention : String
deriving Repr, DecidableEq

/-- The `step_info` sub-dict of a reply. -/
structure StepInfo where
  current_step : Nat
  total_steps : Nat
  intervention_type : String
deriving Repr, DecidableEq

/-- The `clinical_outcomes` sub-dict of the completion reply produced by
`ClinicalTherapeuticFlow.complete_clinical_flow` (duration and RAG
analytics omitted). -/
structure ClinicalOutcomes where
  completion_rate : ℚ
  effectiveness_ratings : List RatingRecord
  safety_flags : List String
  techniques_used : List String
deriving Repr, DecidableEq

/-- The `session_summary` sub-dict of the completion reply. -/
structure SessionSummary where
  scenario : String
  intensity : String
  steps_completed : Nat
  clinical_success : Bool
deriving Repr, DecidableEq

/-- A reply dict.  Only the keys that some verified claim or some control
decision reads are modelled; `none` = key absent. -/
structure Reply where
  message : String := ""
  flow_type : Option String := none
  crisis_resources : List CrisisResource := []
  disable_free_form : Option Bool := none
  disable_free_form_responses : Option Bool := none
  immediate_escalation : Option Bool := none
  crisis_override : Option Bool := none
  clinical_override : Option Bool := none
  safety_message : Option String := none
  log_crisis_interaction : Option Bool := none
  rag_enhanced_crisis : Option Bool := none
  advance_step : Option Bool := none
  flow_completed : Option Bool := none
  requires_input : Option Bool := none
  intervention_type : Option String := none
  step_number : Option Nat := none
  total_steps : Option Nat := none
  flow_name : Option String := none
  scenario : Option String := none
  clinical_guidance : Option String := none
  step_info : Option StepInfo := none
  clinical_outcome : Option Nat := none
  safety_concern : Option Bool := none
  escalation_recommended : Option Bool := none
  clinical_outcomes : Option ClinicalOutcomes := none
  session_summary : Option SessionSummary := none
  error : Option String := none
  flow_restart_needed : Option Bool := none
deriving Repr, DecidableEq

/-- `FlowState` of base_flow.py.  `user_responses` models the dict keyed by
step index as an association list updated in place; timestamps,
`technique_preferences` and the RAG counters are omitted. -/
structure FlowState where
  current_step : Nat := 0
  user_responses : List (Nat × ResponseRecord) := []
  effectiveness_ratings : List RatingRecord := []
  completion_status : String := "in_progress"
  safety_flags : List String := []
deriving Repr, DecidableEq

/-- Dict update `d[k] = v` on the association-list model: replace the first
binding of `k`, or append a new binding. -/
def updateAssoc : List (Nat × ResponseRecord) → Nat → ResponseRecord →
    List (Nat × ResponseRecord)
  | [], k, v => [(k, v)]
  | (k0, v0) :: rest, k, v =>
    if k0 = k then (k, v) :: rest else (k0, v0) :: updateAssoc rest k v

/-- The external `ContentRetriever`, modelled as the functions supplying the
content strings embedded into reply messages.  Its output never influences
control flow. -/
structure Retriever where
  reassurance : String → ℚ → String
  education : String → String
  technique : String → String → String → String

/-- A retriever returning empty strings, used for concrete runs. -/
def trivRetriever : Retriever :=
  { reassurance := fun _ _ => "", education := fun _ => "",
    technique := fun _ _ _ => "" }

/-! ## Base flow operations (ClinicalTherapeuticFlow) -/

/-- `ClinicalTherapeuticFlow.activate_crisis_protocol`: appends the safety
flag and returns the fixed crisis reply. -/
def activate_crisis_protocol (fs : FlowState) : FlowState × Reply :=
  ({ fs with safety_flags := fs.safety_flags ++ ["crisis_protocol_activated"] },
   { flow_type := some "crisis_override",
     message := "I notice you might be in crisis. Your safety is the priority.",
     crisis_resources :=
       [{ name := "National Suicide Prevention Lifeline", contact := some "988",
          available := some "24/7" },
        { name := "Crisis Text Line", contact := some "Text HOME to 741741",
          available := some "24/7" },
        { name := "Emergency Services", contact := some "911",
          available := some "Immediate emergency response" }],
     disable_free_form := some true,
     immediate_escalation := some true,
     crisis_override := some true })

/-- `ClinicalTherapeuticFlow.complete_clinical_flow` (duration omitted).
None of the scenario step lists carries a `clinical_notes` key, so the
`.get` defaults of the source apply uniformly. -/
def complete_clinical_flow (flow_name scenario intensity : String)
    (steps : List StepSpec) (fs : FlowState) : FlowState × Reply :=
  let fs2 := { fs with completion_status := "completed" }
  let completion_rate : ℚ :=
    if steps.length = 0 then 1
    else (min fs.current_step steps.length : ℚ) / (steps.length : ℚ)
  (fs2,
   { message := "You\x27ve completed the " ++ flow_name ++
       ". These evidence-based techniques become more effective with practice.",
     flow_completed := some true,
     clinical_outcomes := some
       { completion_rate := completion_rate,
         effectiveness_ratings := fs.effectiveness_ratings,
         safety_flags := fs.safety_flags,
         techniques_used := (steps.take fs.current_step).map StepSpec.intervention },
     session_summary := some
       { scenario := scenario, intensity := intensity,
         steps_completed := fs.current_step,
         clinical_success := decide ((8 : ℚ)/10 ≤ completion_rate) && fs.safety_flags.isEmpty },
     step_info := some
       { current_step := steps.length, total_steps := steps.length,
         intervention_type := "completed" } })

/-- `ClinicalTherapeuticFlow.get_current_step_response`.  None of the
scenario step lists carries a `clinical_message` key, so the fallback
message of the source always applies. -/
def get_current_step_response (flow_name scenario intensity : String)
    (steps : List StepSpec) (fs : FlowState) : FlowState × Reply :=
  if h : fs.current_step < steps.length then
    let cur := steps.get ⟨fs.current_step, h⟩
    (fs,
     { intervention_type := some cur.intervention,
       step_number := some (fs.current_step + 1),
       total_steps := some steps.length,
       flow_name := some flow_name,
       scenario := some scenario,
       requires_input := some cur.requires_input,
       clinical_guidance := some "",
       advance_step := some true,
       message := "Continuing with " ++ flow_name ++ " - step " ++
         toString (fs.current_step + 1) })
  else
    complete_clinical_flow flow_name scenario intensity steps fs

/-! ## AcuteAnxietyFlow (src/src/flows/panic/acute_anxiety_flow.py) -/

/-- Junk step used as the default of `List.getD`; every access is guarded by
a bounds check mirroring the source, so it is never read. -/
def noStep : StepSpec := ⟨"", "", true⟩

/-- The whitespace set stripped by Python `str.strip()`. -/
def isPyWhitespace (c : Char) : Bool :=
  c == ' ' || c == '\t' || c == '\n' || c == '\r' || c == '\x0b' || c == '\x0c'

/-- Python `str.strip()` on the character-list view. -/
def stripChars (cs : List Char) : List Char :=
  ((cs.dropWhile isPyWhitespace).reverse.dropWhile isPyWhitespace).reverse

/-- `user_input.lower().strip()` as a character list. -/
def lowerStrip (s : String) : List Char :=
  stripChars (s.toList.map Char.toLower)

/-- The tail of `AcuteAnxietyFlow.process_clinical_step`: re-deliver the
current base step reply with the local `step_info` attached. -/
def acuteFallback (fs : FlowState) (si : StepInfo) : FlowState × Reply :=
  let pr := get_current_step_response ("Acute Anxiety Support") ("panic")
    ("high") acute_anxiety_steps fs
  (pr.1, { pr.2 with step_info := some si })

/-- Step 0 (safety assessment) branch. -/
def acuteStep0 (retr : Retriever) (fs : FlowState) (low : List Char)
    (si : StepInfo) : FlowState × Reply :=
  let reassurance := retr.reassurance ("panic") (7/10)
  if (["no", "not safe", "danger"] : List String).any
      (fun w => containsSub w.toList low) then
    (fs, { message := reassurance ++
             "\n\nYour safety is the priority. Please consider calling emergency services (911) or going to your nearest emergency room. We can continue with grounding techniques while you decide.",
           safety_concern := some true, escalation_recommended := some true,
           advance_step := some true, step_info := some si })
  else
    (fs, { message := reassurance ++ "\n\nAre you in a safe location?",
           advance_step := some true, step_info := some si })

/-- Step 1 (psychoeducation) branch. -/
def acuteStep1 (retr : Retriever) (fs : FlowState) (si : StepInfo) :
    FlowState × Reply :=
  (fs, { message := retr.education ("panic"),
         advance_step := some true, step_info := some si })

/-- Step 2 (4-7-8 breathing) branch. -/
def acuteStep2 (retr : Retriever) (fs : FlowState) (low : List Char)
    (si : StepInfo) : FlowState × Reply :=
  let technique := retr.technique ("panic") ("high") ("breathing")
  if (["can\x27t", "difficult", "not working"] : List String).any
      (fun w => containsSub w.toList low) then
    (fs, { message := "That\x27s okay—breathing techniques can feel difficult during panic. Let\x27s try natural breathing: just breathe at your own pace and count each breath from 1 to 10. Reply \x27done\x27 when ready.",
           advance_step := some false, step_info := some si })
  else
    (fs, { message := "Let\x27s use a powerful technique for panic:\n\n" ++
             technique ++ "\n\nType \x27done\x27 when you\x27ve completed it.",
           advance_step := some true, step_info := some si })

/-- Step 3 (5-4-3-2-1 grounding) branch. -/
def acuteStep3 (retr : Retriever) (fs : FlowState) (low : List Char)
    (si : StepInfo) : FlowState × Reply :=
  let technique := retr.technique ("panic") ("medium") ("grounding")
  if (["see", "hear", "touch", "smell", "taste"] : List String).any
      (fun w => containsSub w.toList low) then
    (fs, { message := "Excellent work engaging your senses. This helps interrupt the panic cycle by grounding you in reality.",
           advance_step := some true, step_info := some si })
  else
    (fs, { message := "Let\x27s ground you in the moment:\n\n" ++ technique ++
             "\n\nStart with the 5 things you can see and work through the list.",
           advance_step := some true, step_info := some si })

/-- Step 4 (progressive muscle relaxation) branch. -/
def acuteStep4 (retr : Retriever) (fs : FlowState) (si : StepInfo) :
    FlowState × Reply :=
  let technique := retr.technique ("panic") ("low") ("relaxation")
  (fs, { message := technique ++
           "\n\nNotice the contrast between tension and relaxation. Type \x27done\x27 when finished.",
         advance_step := some true, step_info := some si })

/-- Step 5 (clinical reassurance) branch. -/
def acuteStep5 (retr : Retriever) (fs : FlowState) (si : StepInfo) :
    FlowState × Reply :=
  let reassurance := retr.reassurance ("panic") (2/5)
  (fs, { message := reassurance ++
           "\n\nYou\x27ve just used several evidence-based techniques. Panic attacks, while frightening, are temporary. Your symptoms will continue to decrease as your nervous system calms.",
         advance_step := some true, step_info := some si })

/-- Step 6 (effectiveness assessment) branch: append the parsed rating, or
fall through to the generic step reply when no rating parses. -/
def acuteStep6 (fs : FlowState) (user_input : String) (si : StepInfo) :
    FlowState × Reply :=
  match extract_anxiety_rating user_input with
  | some rating =>
    let fs2 := { fs with effectiveness_ratings := fs.effectiveness_ratings ++
      [{ rating := rating, intervention_phase := some "post_technique" }] }
    let response_msg :=
      if rating ≤ 3 then
        "Excellent! Your anxiety has decreased significantly to " ++
          toString rating ++ "/10. The techniques worked well for you."
      else if rating ≤ 6 then
        "Good progress—you\x27re down to " ++ toString rating ++
          "/10. These skills keep getting more effective with practice."
      else
        "You\x27re still experiencing high anxiety at " ++ toString rating ++
          "/10. That\x27s normal—recovery isn\x27t always linear. Would you like to try another technique?"
    (fs2, { message := response_msg, clinical_outcome := some rating,
            advance_step := some true, step_info := some si })
  | none => acuteFallback fs si

/-- `AcuteAnxietyFlow.process_clinical_step`: bounds check, then dispatch on
the step index exactly as the `if`/`elif` chain of the source; the shared
prelude (`user_input.lower().strip()` and `step_info()`) is computed once. -/
def acuteProcessClinicalStep (retr : Retriever) (fs : FlowState)
    (user_input : String) : FlowState × Reply :=
  if acute_anxiety_steps.length ≤ fs.current_step then
    complete_clinical_flow ("Acute Anxiety Support") ("panic") ("high")
      acute_anxiety_steps fs
  else
    let low := lowerStrip user_input
    let si : StepInfo := ⟨fs.current_step + 1, acute_anxiety_steps.length,
      (acute_anxiety_steps.getD fs.current_step noStep).intervention⟩
    if fs.current_step = 0 then acuteStep0 retr fs low si
    else if fs.current_step = 1 then acuteStep1 retr fs si
    else if fs.current_step = 2 then acuteStep2 retr fs low si
    else if fs.current_step = 3 then acuteStep3 retr fs low si
    else if fs.current_step = 4 then acuteStep4 retr fs si
    else if fs.current_step = 5 then acuteStep5 retr fs si
    else if fs.current_step = 6 then acuteStep6 fs user_input si
    else acuteFallback fs si

/-- `ClinicalTherapeuticFlow.process_user_input`, instantiated with the
panic flow step logic: record the raw input, run the crisis screen, run the
step logic, and advance iff `response.get('advance_step', True)`. -/
def acuteProcessUserInput (retr : Retriever) (fs : FlowState)
    (user_input : String) : FlowState × Reply :=
  let record : ResponseRecord :=
    { input := user_input, safety_screened := true,
      step_intervention :=
        if fs.current_step < acute_anxiety_steps.length then
          (acute_anxiety_steps.getD fs.current_step noStep).intervention
        else "completed" }
  let fs1 := { fs with
    user_responses := updateAssoc fs.user_responses fs.current_step record }
  if detect_crisis_keywords user_input then
    activate_crisis_protocol
      { fs1 with safety_flags := fs1.safety_flags ++ ["crisis_detected_during_flow"] }
  else
    let pr := acuteProcessClinicalStep retr fs1 user_input
    if pr.2.advance_step.getD true then
      ({ pr.1 with current_step := pr.1.current_step + 1 }, pr.2)
    else pr

/-- The `clinical_context` argument, reduced to the field the orchestration
core reads for control flow. -/
structure ClinicalContext where
  text : Option String := none
deriving Repr, DecidableEq

/-- Truthiness of `clinical_context and clinical_context.get('text')`
followed by the crisis screen on that text. -/
def contextTextCrisis (ctx : ClinicalContext) : Bool :=
  match ctx.text with
  | some t => !t.isEmpty && detect_crisis_keywords t
  | none => false

/-- `ClinicalTherapeuticFlow.start_flow` for the panic flow: reset the state,
screen the context text, and produce the step-0 reply. -/
def acuteStartFlow (ctx : ClinicalContext) : FlowState × Reply :=
  let fs : FlowState := {}
  if contextTextCrisis ctx then activate_crisis_protocol fs
  else get_current_step_response ("Acute Anxiety Support") ("panic") ("high")
    acute_anxiety_steps fs

/-! ## ClinicalFlowManager (src/src/flows/clinical_flow_manager.py)

The manager keys its dicts (`active_flows`, `clinical_outcomes`,
`session_history`) by `user_id`, and every operation touches only the
calling user entry; the state below is therefore the projection of those
dicts to one user.  The registry stores whichever flow class the name maps
to; this embedding instantiates it with the panic flow, all manager logic
itself being uniform in the flow class.  Logging (`session_history`,
`log_clinical_event`) and the `clinical_metadata` / `clinical_monitoring`
decoration of replies are omitted: they do not feed back into control flow
or outcome bookkeeping. -/

/-- A document returned by `ContentRetriever.search_by_keywords`: its text
and its `metadata['type']`. -/
structure RagItem where
  content : String
  metadata_type : String
deriving Repr, DecidableEq

/-- The `additional_resources` computed inside the `try` block of
`activate_crisis_override`; the `error` case is the `except` branch. -/
def additionalFrom : Except Unit (List RagItem) → List CrisisResource
  | .error _ => []
  | .ok items =>
    (items.filter fun it =>
      containsSub (String.toList ("crisis")) (lowerStr it.metadata_type).toList).map
      fun it =>
        { name := "Additional Support",
          description := some ((it.content.toList.take 100).asString ++ "..."),
          source := some "therapeutic_knowledge_base" }

/-- An entry appended to `clinical_outcomes[user_id]` by
`complete_clinical_session` (session id, duration and RAG analytics
omitted). -/
structure OutcomeSnapshot where
  flow_name : String
  scenario : String
  completion_rate : ℚ
  effectiveness_ratings : List RatingRecord
  safety_flags : List String
  techniques_used : List String
  clinical_success : Bool
deriving Repr, DecidableEq

/-- An entry of `active_flows` (start time and RAG counters omitted). -/
structure ActiveFlowData where
  flow_state : FlowState
  flow_name : String
deriving Repr, DecidableEq

/-- The manager state projected to one user: the `active_flows` entry and
the `clinical_outcomes` list. -/
structure ManagerUserState where
  active : Option ActiveFlowData := none
  outcomes : List OutcomeSnapshot := []
deriving Repr, DecidableEq

/-- `ClinicalFlowManager.activate_crisis_override`: drop the active flow if
any, then return the fixed crisis reply extended with whatever the RAG
lookup produced. -/
def activate_crisis_override (lookup : Except Unit (List RagItem))
    (st : ManagerUserState) : ManagerUserState × Reply :=
  ({ st with active := none },
   { flow_type := some "crisis_override",
     message := "I\x27m very concerned about your safety right now. Please reach out for immediate help:",
     crisis_resources :=
       [{ name := "National Suicide Prevention Lifeline", contact := some "988",
          description := some "Free, confidential 24/7 support",
          priority := some "highest" },
        { name := "Crisis Text Line", contact := some "Text HOME to 741741",
          description := some "24/7 text-based crisis support",
          priority := some "highest" },
        { name := "Emergency Services", contact := some "911",
          description := some "For immediate emergency response",
          priority := some "highest" },
        { name := "National Alliance on Mental Illness",
          contact := some "Text NAMI to 741741",
          description := some "Mental health support and resources",
          priority := some "high" }] ++ additionalFrom lookup,
     safety_message := some "Your life has value and there are people who want to help you. Please reach out to one of these resources.",
     disable_free_form_responses := some true,
     log_crisis_interaction := some true,
     immediate_escalation := some true,
     clinical_override := some true,
     rag_enhanced_crisis := some (decide (0 < (additionalFrom lookup).length)) })

/-- `ClinicalFlowManager.complete_clinical_session`: when a flow is active,
append an outcome snapshot computed from its state and clear the slot;
otherwise do nothing. -/
def complete_clinical_session (st : ManagerUserState) : ManagerUserState :=
  match st.active with
  | none => st
  | some fd =>
    let fs := fd.flow_state
    let total := acute_anxiety_steps.length
    let completion_rate : ℚ := (min (fs.current_step + 1) total : ℚ) / (total : ℚ)
    let outcome : OutcomeSnapshot :=
      { flow_name := fd.flow_name, scenario := "panic",
        completion_rate := completion_rate,
        effectiveness_ratings := fs.effectiveness_ratings,
        safety_flags := fs.safety_flags,
        techniques_used :=
          (acute_anxiety_steps.take (fs.current_step + 1)).map StepSpec.intervention,
        clinical_success :=
          decide ((8 : ℚ)/10 ≤ completion_rate) && fs.safety_flags.isEmpty }
    { active := none, outcomes := st.outcomes ++ [outcome] }

/-- `ClinicalFlowManager.process_clinical_response`: crisis screen first,
then the missing-flow reply, then delegate to the flow and apply the
manager-side bounded re-increment of `current_step`, then archive on a reply
flagged completed or crisis. -/
def process_clinical_response (retr : Retriever)
    (lookup : Except Unit (List RagItem)) (st : ManagerUserState)
    (user_input : String) : ManagerUserState × Reply :=
  if detect_crisis_keywords user_input then
    activate_crisis_override lookup st
  else
    match st.active with
    | none =>
      (st, { error := some "No active clinical flow",
             message := "It looks like we need to start over. How are you feeling right now?",
             flow_restart_needed := some true })
    | some fd =>
      let pr := acuteProcessUserInput retr fd.flow_state user_input
      let fs2 :=
        if pr.2.advance_step.getD false then
          if pr.1.current_step < acute_anxiety_steps.length then
            { pr.1 with current_step := pr.1.current_step + 1 }
          else pr.1
        else pr.1
      let st2 : ManagerUserState :=
        { st with active := some { fd with flow_state := fs2 } }
      let st3 :=
        if pr.2.flow_completed.getD false || pr.2.crisis_override.getD false then
          complete_clinical_session st2
        else st2
      (st3, pr.2)

/-- The status dict of `get_clinical_flow_status` (duration and RAG fields
omitted). -/
structure FlowStatus where
  flow_name : String
  scenario : String
  intensity : String
  current_step : Nat
  total_steps : Nat
  current_intervention : String
  safety_flags : List String
  effectiveness_ratings : List RatingRecord
  completion_rate : ℚ
deriving Repr, DecidableEq

/-- `ClinicalFlowManager.get_clinical_flow_status` (read-only). -/
def get_clinical_flow_status (st : ManagerUserState) : Option FlowStatus :=
  match st.active with
  | none => none
  | some fd =>
    let fs := fd.flow_state
    let total := acute_anxiety_steps.length
    some
      { flow_name := fd.flow_name, scenario := "panic", intensity := "high",
        current_step := fs.current_step + 1,
        total_steps := total,
        current_intervention :=
          if fs.current_step < total then
            (acute_anxiety_steps.getD fs.current_step noStep).intervention
          else "completed",
        safety_flags := fs.safety_flags,
        effectiveness_ratings := fs.effectiveness_ratings,
        completion_rate := (min (fs.current_step + 1) total : ℚ) / (total : ℚ) }

/-- The keys of `clinical_flow_registry`. -/
def clinical_flow_registry_names : List String :=
  ["acute_anxiety_flow", "panic_crisis_flow", "panic_breathing_flow",
   "panic_flow", "nighttime_flow", "sleep_flow", "sleep_hygiene_flow",
   "insomnia_flow", "pre_event_flow", "pre_event_nervousness_flow",
   "performance_anxiety_flow", "event_anxiety_flow", "isolation_flow",
   "loneliness_flow", "social_anxiety_flow", "connection_flow",
   "uncertainty_flow", "worry_flow", "anticipatory_anxiety_flow",
   "unknown_flow", "decision_making_flow", "choice_paralysis_flow",
   "indecision_flow", "decision_flow", "physical_triggers_flow",
   "somatic_anxiety_flow", "environmental_triggers_flow",
   "body_anxiety_flow", "general_anxiety_flow"]

/-- `ClinicalFlowManager.start_clinical_flow`: crisis screen on the context
text, registry validation, then store the freshly started instance as the
active flow.  The source stores the instance dict and then lets
`start_flow` mutate it in place; the single final update below is the net
effect.  The `suggested_flows` keyword-overlap helper of the error reply is
not modelled. -/
def start_clinical_flow (lookup : Except Unit (List RagItem))
    (st : ManagerUserState) (flow_name : String) (ctx : ClinicalContext) :
    ManagerUserState × Reply :=
  if contextTextCrisis ctx then
    activate_crisis_override lookup st
  else if !(clinical_flow_registry_names.contains flow_name) then
    (st, { error := some ("Clinical flow " ++ flow_name ++ " not implemented"),
           message := "Let me help you with general anxiety support. How are you feeling right now?" })
  else
    let pr := acuteStartFlow ctx
    ({ st with active := some { flow_state := pr.1, flow_name := flow_name } },
     pr.2)

/-! ## Helper lemmas -/

/-- Membership in the matched-pattern list of one tier. -/
theorem mem_findRisk {pats : List (String × List String)} {t c p : String} :
    (c, p) ∈ findRisk pats t ↔
      ∃ ps, (c, ps) ∈ pats ∧ p ∈ ps ∧ phraseFound t p = true := by
  unfold findRisk
  simp only [List.mem_flatMap, List.mem_map, List.mem_filter, Prod.mk.injEq,
    exists_eq_right_right, Prod.exists]
  constructor
  · rintro ⟨a, b, hmem, ⟨hp, hf⟩, rfl⟩
    exact ⟨b, hmem, hp, hf⟩
  · rintro ⟨ps, hmem, hp, hf⟩
    exact ⟨c, ps, hmem, ⟨hp, hf⟩, rfl⟩

/-- The matched-pattern list of a tier is empty iff no phrase matches. -/
theorem findRisk_eq_nil_iff (pats : List (String × List String)) (t : String) :
    findRisk pats t = [] ↔ anyRiskMatch pats t = false := by
  unfold findRisk anyRiskMatch
  simp [List.flatMap_eq_nil_iff, List.map_eq_nil_iff, List.filter_eq_nil_iff,
    List.any_eq_false]

/-- `isEmpty` of the matched-pattern list versus the Boolean tier test. -/
theorem findRisk_isEmpty_eq (pats : List (String × List String)) (t : String) :
    (findRisk pats t).isEmpty = !anyRiskMatch pats t := by
  cases h : anyRiskMatch pats t with
  | false =>
    simp [List.isEmpty_iff, findRisk_eq_nil_iff, h]
  | true =>
    simp only [Bool.not_true]
    rw [List.isEmpty_eq_false]
    intro hnil
    rw [findRisk_eq_nil_iff] at hnil
    rw [hnil] at h
    cases h

/-- The crisis level computed by the detector, in closed form. -/
theorem detect_level_eq (text : String) :
    (detect_crisis_level text).crisis_level =
      (if anyRiskMatch high_risk_patterns (lowerStr text) then "high"
       else if anyRiskMatch medium_risk_patterns (lowerStr text) then "medium"
       else "none") := by
  simp only [detect_crisis_level]
  rw [findRisk_isEmpty_eq, findRisk_isEmpty_eq]
  cases anyRiskMatch high_risk_patterns (lowerStr text) <;>
    cases anyRiskMatch medium_risk_patterns (lowerStr text) <;> simp

/-- The category list is the deduplicated first projection of all matched
patterns, in every branch of the detector. -/
theorem detect_categories_eq (text : String) :
    (detect_crisis_level text).categories =
      ((findRisk high_risk_patterns (lowerStr text) ++
        findRisk medium_risk_patterns (lowerStr text)).map Prod.fst).dedup := by
  simp only [detect_crisis_level]
  split_ifs <;> rfl

/-! ## Claim C8 -/

/-- C8: crisis screening is a pure function of the text, computed with
tiered precedence — any high-tier match (suicidal ideation, self-harm,
hopelessness) forces level `high` regardless of medium matches; with no
high-tier match, any medium-tier (severe distress) match yields `medium`;
with neither, `none` — and the reported categories are exactly the tiers
containing a matching phrase. -/
theorem c8_crisis_screen_precedence (text : String) :
    ((detect_crisis_level text).crisis_level =
      (if anyRiskMatch high_risk_patterns (lowerStr text) then "high"
       else if anyRiskMatch medium_risk_patterns (lowerStr text) then "medium"
       else "none"))
    ∧ (∀ cat : String,
        cat ∈ (detect_crisis_level text).categories ↔
          ((∃ ps, (cat, ps) ∈ high_risk_patterns ∧
              ∃ p ∈ ps, phraseFound (lowerStr text) p = true) ∨
           (∃ ps, (cat, ps) ∈ medium_risk_patterns ∧
              ∃ p ∈ ps, phraseFound (lowerStr text) p = true))) := by
  refine ⟨detect_level_eq text, fun cat => ?_⟩
  rw [detect_categories_eq, List.mem_dedup, List.mem_map]
  constructor
  · rintro ⟨⟨c, p⟩, hmem, rfl⟩
    rcases List.mem_append.mp hmem with h | h
    · rcases mem_findRisk.mp h with ⟨ps, hps, hp, hf⟩
      exact Or.inl ⟨ps, hps, p, hp, hf⟩
    · rcases mem_findRisk.mp h with ⟨ps, hps, hp, hf⟩
      exact Or.inr ⟨ps, hps, p, hp, hf⟩
  · rintro (⟨ps, hps, p, hp, hf⟩ | ⟨ps, hps, p, hp, hf⟩)
    · exact ⟨(cat, p), List.mem_append_left _ (mem_findRisk.mpr ⟨ps, hps, hp, hf⟩), rfl⟩
    · exact ⟨(cat, p), List.mem_append_right _ (mem_findRisk.mpr ⟨ps, hps, hp, hf⟩), rfl⟩

/-! ## Claim C9 -/

/-- C9 counterexample: the decision_making scenario is in the scenario
table, yet none of its steps has kind `effectiveness_check` — refuting the
claim that every scenario sequence contains one. -/
theorem c9_counterexample :
    ("decision_making", decision_making_steps) ∈ scenario_step_sequences
    ∧ decision_making_steps.all
        (fun s => !(s.step_type == "effectiveness_check")) = true := by
  decide

/-- C9 amended: only the panic and general_anxiety step sequences contain a
step of kind `effectiveness_check`; the other six scenarios — including
decision_making — contain none. -/
theorem c9_amended :
    ((scenario_step_sequences.filter fun sc =>
        sc.2.any fun s => s.step_type == "effectiveness_check").map Prod.fst)
      = ["panic", "general_anxiety"] := by
  decide

/-! ## Claim C10 -/

/-- C10: rating extraction gives digit tokens precedence — the leftmost
word-boundary digit token `1`..`10` wins; only with no digit token are the
English number words checked, by plain substring containment in dict order
starting at `one`, so an input containing `one` inside another word parses
as rating 1 instead of failing. -/
theorem c10_rating_extraction (input : String) :
    (∀ n, findDigitToken false input.toList = some n →
       extract_anxiety_rating input = some n)
    ∧ (findDigitToken false input.toList = none →
       extract_anxiety_rating input =
         (word_ratings.find? fun wr =>
           containsSub wr.1.toList (lowerStr input).toList).map Prod.snd)
    ∧ (findDigitToken false input.toList = none →
       containsSub (String.toList ("one")) (lowerStr input).toList = true →
       extract_anxiety_rating input = some 1) := by
  refine ⟨?_, ?_, ?_⟩
  · intro n h
    unfold extract_anxiety_rating
    rw [h]
  · intro h
    unfold extract_anxiety_rating
    rw [h]
  · intro h hone
    unfold extract_anxiety_rating
    rw [h]
    have hfind : (word_ratings.find? fun wr =>
        containsSub wr.1.toList (lowerStr input).toList) = some ("one", 1) := by
      unfold word_ratings
      exact List.find?_cons_of_pos _ hone
    rw [hfind]
    rfl

/-- C10 witness: the input `none` has no digit token, contains `one` as a
substring, and extracts rating 1. -/
theorem c10_witness :
    findDigitToken false (String.toList ("none")) = none
    ∧ containsSub (String.toList ("one")) (lowerStr ("none")).toList = true
    ∧ extract_anxiety_rating ("none") = some 1 :=
  ⟨by decide, by decide,
    (c10_rating_extraction ("none")).2.2 (by decide) (by decide)⟩

/-! ## Step-handler state lemmas -/

/-- `get_current_step_response` only ever touches the completion status. -/
theorem gcsr_state (n s i : String) (steps : List StepSpec) (fs : FlowState) :
    ((get_current_step_response n s i steps fs).1).current_step = fs.current_step
    ∧ ((get_current_step_response n s i steps fs).1).user_responses = fs.user_responses
    ∧ ((get_current_step_response n s i steps fs).1).safety_flags = fs.safety_flags
    ∧ ((get_current_step_response n s i steps fs).1).effectiveness_ratings
        = fs.effectiveness_ratings := by
  unfold get_current_step_response
  split
  · exact ⟨rfl, rfl, rfl, rfl⟩
  · exact ⟨rfl, rfl, rfl, rfl⟩

/-- `acuteFallback` state changes are those of the base step reply. -/
theorem acuteFallback_state (fs : FlowState) (si : StepInfo) :
    ((acuteFallback fs si).1).current_step = fs.current_step
    ∧ ((acuteFallback fs si).1).user_responses = fs.user_responses
    ∧ ((acuteFallback fs si).1).safety_flags = fs.safety_flags := by
  obtain ⟨h1, h2, h3, -⟩ :=
    gcsr_state ("Acute Anxiety Support") ("panic") ("high") acute_anxiety_steps fs
  exact ⟨h1, h2, h3⟩

/-- The step handler never changes `current_step`, `user_responses` or
`safety_flags`; its state effects are limited to appending a rating and
setting the completion status. -/
theorem acuteStep_state (retr : Retriever) (fs : FlowState) (input : String) :
    ((acuteProcessClinicalStep retr fs input).1).current_step = fs.current_step
    ∧ ((acuteProcessClinicalStep retr fs input).1).user_responses = fs.user_responses
    ∧ ((acuteProcessClinicalStep retr fs input).1).safety_flags = fs.safety_flags := by
  unfold acuteProcessClinicalStep
  split
  · exact ⟨rfl, rfl, rfl⟩
  · dsimp only
    split_ifs <;>
      first
        | exact ⟨rfl, rfl, rfl⟩
        | (unfold acuteStep0
           split <;> exact ⟨rfl, rfl, rfl⟩)
        | (unfold acuteStep2
           split <;> exact ⟨rfl, rfl, rfl⟩)
        | (unfold acuteStep3
           split <;> exact ⟨rfl, rfl, rfl⟩)
        | (unfold acuteStep6
           cases extract_anxiety_rating input with
            | none => exact acuteFallback_state fs _
            | some r => exact ⟨rfl, rfl, rfl⟩)
        | exact acuteFallback_state fs _

/-- A step-handler call at an index past the end returns the completion
reply. -/
theorem acuteStep_completion_reply (retr : Retriever) (fs : FlowState)
    (input : String) (h : acute_anxiety_steps.length ≤ fs.current_step) :
    (acuteProcessClinicalStep retr fs input).2.flow_completed = some true := by
  unfold acuteProcessClinicalStep
  rw [if_pos h]
  rfl

/-- A step-handler call at an in-range index does not produce the completion
reply. -/
theorem acuteStep_not_completed (retr : Retriever) (fs : FlowState)
    (input : String) (h : fs.current_step < acute_anxiety_steps.length) :
    (acuteProcessClinicalStep retr fs input).2.flow_completed = none := by
  have hfb : (acuteFallback fs
      ⟨fs.current_step + 1, acute_anxiety_steps.length,
        (acute_anxiety_steps.getD fs.current_step noStep).intervention⟩).2.flow_completed
      = none := by
    unfold acuteFallback get_current_step_response
    rw [dif_pos h]
  unfold acuteProcessClinicalStep
  rw [if_neg (by omega)]
  dsimp only
  split_ifs <;>
    first
      | rfl
      | (unfold acuteStep0
         split <;> rfl)
      | (unfold acuteStep2
         split <;> rfl)
      | (unfold acuteStep3
         split <;> rfl)
      | (unfold acuteStep6
         cases extract_anxiety_rating input with
          | none => exact hfb
          | some r => rfl)
      | exact hfb

/-- First component of `acuteStep_state`, as a rewrite rule. -/
theorem acuteStep_cs (retr : Retriever) (fs : FlowState) (input : String) :
    ((acuteProcessClinicalStep retr fs input).1).current_step = fs.current_step :=
  (acuteStep_state retr fs input).1

/-- `process_user_input` moves `current_step` forward by zero or one. -/
theorem acuteProcess_cs_bounds (retr : Retriever) (fs : FlowState)
    (input : String) :
    fs.current_step ≤ (acuteProcessUserInput retr fs input).1.current_step
    ∧ (acuteProcessUserInput retr fs input).1.current_step ≤ fs.current_step + 1 := by
  unfold acuteProcessUserInput
  cases hc : detect_crisis_keywords input with
  | true =>
    simp only [hc, if_true]
    exact ⟨Nat.le_refl _, Nat.le_succ _⟩
  | false =>
    simp only [hc, Bool.false_eq_true, if_false]
    constructor <;>
      (split <;>
        (split <;>
          (simp [acuteStep_cs]
           try omega)))

/-- The fallback reply carries no `crisis_override` key. -/
theorem acuteFallback_no_crisis_override (fs : FlowState) (si : StepInfo) :
    (acuteFallback fs si).2.crisis_override = none := by
  unfold acuteFallback get_current_step_response
  split <;> rfl

/-- No branch of the step handler emits a `crisis_override` key. -/
theorem acuteStep_no_crisis_override (retr : Retriever) (fs : FlowState)
    (input : String) :
    (acuteProcessClinicalStep retr fs input).2.crisis_override = none := by
  unfold acuteProcessClinicalStep
  split
  · rfl
  · dsimp only
    split_ifs <;>
      first
        | rfl
        | (unfold acuteStep0
           split <;> rfl)
        | (unfold acuteStep2
           split <;> rfl)
        | (unfold acuteStep3
           split <;> rfl)
        | (unfold acuteStep6
           cases extract_anxiety_rating input with
            | none => exact acuteFallback_no_crisis_override fs _
            | some r => rfl)
        | exact acuteFallback_no_crisis_override fs _

/-- A non-crisis `process_user_input` call past the end of the steps returns
the completion reply. -/
theorem acuteProcess_completed_of_ge (retr : Retriever) (fs : FlowState)
    (input : String) (hc : detect_crisis_keywords input = false)
    (h : acute_anxiety_steps.length ≤ fs.current_step) :
    (acuteProcessUserInput retr fs input).2.flow_completed = some true := by
  unfold acuteProcessUserInput
  simp only [hc, Bool.false_eq_true, if_false]
  split_ifs <;> exact acuteStep_completion_reply retr _ input h

/-- A non-crisis `process_user_input` call at an in-range step does not
return the completion reply. -/
theorem acuteProcess_not_completed_of_lt (retr : Retriever) (fs : FlowState)
    (input : String) (hc : detect_crisis_keywords input = false)
    (h : fs.current_step < acute_anxiety_steps.length) :
    (acuteProcessUserInput retr fs input).2.flow_completed = none := by
  unfold acuteProcessUserInput
  simp only [hc, Bool.false_eq_true, if_false]
  split_ifs <;> exact acuteStep_not_completed retr _ input h

/-- A non-crisis `process_user_input` call never emits a `crisis_override`
key. -/
theorem acuteProcess_no_crisis_override (retr : Retriever) (fs : FlowState)
    (input : String) (hc : detect_crisis_keywords input = false) :
    (acuteProcessUserInput retr fs input).2.crisis_override = none := by
  unfold acuteProcessUserInput
  simp only [hc, Bool.false_eq_true, if_false]
  split_ifs <;> exact acuteStep_no_crisis_override retr _ input

/-! ## Claim C1 -/

/-- C1 amended: across one `process_clinical_response` call on a user with
an active (panic) flow, `current_step` never decreases, and the flow layer
alone advances it by at most 1; but the manager layer re-increments after
the flow layer, so the per-call increase is bounded by 2, not 1 (and 2 is
attained); while the flow remains active `current_step` stays within the
step count, but the call made at `current_step = len(steps)` pushes it to
`len(steps) + 1` before the flow is archived, so the original bound
`current_step ≤ len(steps)` fails. -/
theorem c1_amended (retr : Retriever) (lookup : Except Unit (List RagItem))
    (st : ManagerUserState) (input : String) (fd : ActiveFlowData)
    (h : st.active = some fd) :
    (fd.flow_state.current_step ≤
        (acuteProcessUserInput retr fd.flow_state input).1.current_step
      ∧ (acuteProcessUserInput retr fd.flow_state input).1.current_step
          ≤ fd.flow_state.current_step + 1)
    ∧ (∀ fd', (process_clinical_response retr lookup st input).1.active = some fd' →
        fd.flow_state.current_step ≤ fd'.flow_state.current_step
        ∧ fd'.flow_state.current_step ≤ fd.flow_state.current_step + 2
        ∧ fd'.flow_state.current_step ≤ acute_anxiety_steps.length) := by
  refine ⟨acuteProcess_cs_bounds retr fd.flow_state input, ?_⟩
  intro fd' hfd'
  unfold process_clinical_response at hfd'
  cases hc : detect_crisis_keywords input with
  | true =>
    simp only [hc, if_true] at hfd'
    simp [activate_crisis_override] at hfd'
  | false =>
    simp only [hc, Bool.false_eq_true, if_false, h] at hfd'
    obtain ⟨hb1, hb2⟩ := acuteProcess_cs_bounds retr fd.flow_state input
    by_cases hcomp :
        ((acuteProcessUserInput retr fd.flow_state input).2.flow_completed.getD false
          || (acuteProcessUserInput retr fd.flow_state input).2.crisis_override.getD false) = true
    · rw [if_pos hcomp] at hfd'
      simp [complete_clinical_session] at hfd'
    · rw [if_neg hcomp] at hfd'
      have hlt : fd.flow_state.current_step < acute_anxiety_steps.length := by
        by_contra hge
        rw [acuteProcess_completed_of_ge retr fd.flow_state input hc
          (Nat.le_of_not_lt hge)] at hcomp
        simp at hcomp
      simp only [ManagerUserState.active, Option.some.injEq] at hfd'
      subst hfd'
      dsimp only
      split
      · split <;> (refine ⟨?_, ?_, ?_⟩ <;> (dsimp only; omega))
      · refine ⟨?_, ?_, ?_⟩ <;> (dsimp only; omega)

/-- C1 witness: a fresh active panic flow and one benign input. -/
theorem c1_witness :
    ({ active := some ⟨{}, "acute_anxiety_flow"⟩,
       outcomes := [] } : ManagerUserState).active
      = some ⟨{}, "acute_anxiety_flow"⟩
    ∧ (({} : FlowState).current_step ≤
        (acuteProcessUserInput trivRetriever {} ("yes")).1.current_step
      ∧ (acuteProcessUserInput trivRetriever {} ("yes")).1.current_step
          ≤ ({} : FlowState).current_step + 1) :=
  ⟨rfl,
    (c1_amended trivRetriever (Except.error ())
      { active := some ⟨{}, "acute_anxiety_flow"⟩, outcomes := [] } ("yes")
      ⟨{}, "acute_anxiety_flow"⟩ rfl).1⟩

/-- C1 counterexample: (a) one `process_clinical_response` call on a fresh
panic flow moves `current_step` from 0 to 2 — the double increment refutes
the advance-by-at-most-1 bound; (b) the state with `current_step = 7 =
len(steps)` is reachable while in progress, and the next `process` call
moves it to 8, refuting the `current_step ≤ len(steps)` bound. -/
theorem c1_counterexample :
    (((process_clinical_response trivRetriever (Except.error ())
        { active := some ⟨{}, "acute_anxiety_flow"⟩, outcomes := [] }
        ("yes")).1.active.map fun fd => fd.flow_state.current_step) = some 2)
    ∧ (((process_clinical_response trivRetriever (Except.error ())
          { active := some ⟨{ current_step := 6 }, "acute_anxiety_flow"⟩,
            outcomes := [] }
          ("I do not know")).1.active.getD ⟨{}, ""⟩).flow_state.current_step = 7)
    ∧ (((process_clinical_response trivRetriever (Except.error ())
          { active := some ⟨{ current_step := 6 }, "acute_anxiety_flow"⟩,
            outcomes := [] }
          ("I do not know")).1.active.getD ⟨{}, ""⟩).flow_state.completion_status
        = "in_progress")
    ∧ ((acuteProcessUserInput trivRetriever
          ((process_clinical_response trivRetriever (Except.error ())
            { active := some ⟨{ current_step := 6 }, "acute_anxiety_flow"⟩,
              outcomes := [] }
            ("I do not know")).1.active.getD ⟨{}, ""⟩).flow_state
          ("done")).1.current_step = 8) := by
  refine ⟨by decide, by decide, by decide, by decide⟩

/-! ## Claims C2 and C7 -/

/-- At an index past the end, the step handler state change is exactly
setting the completion status. -/
theorem acuteStep_completion_state (retr : Retriever) (fs : FlowState)
    (input : String) (h : acute_anxiety_steps.length ≤ fs.current_step) :
    (acuteProcessClinicalStep retr fs input).1
      = { fs with completion_status := "completed" } := by
  unfold acuteProcessClinicalStep
  rw [if_pos h]
  rfl

/-- The completion reply carries no `advance_step` key. -/
theorem acuteStep_completion_advance (retr : Retriever) (fs : FlowState)
    (input : String) (h : acute_anxiety_steps.length ≤ fs.current_step) :
    (acuteProcessClinicalStep retr fs input).2.advance_step = none := by
  unfold acuteProcessClinicalStep
  rw [if_pos h]
  rfl

/-- C2 amended: at the panic flow effectiveness-check step (index 6), an
input matching no crisis pattern and containing no parseable rating yields
the generic next-step reply with `advance_step = True` — not a clarifying
reprompt with `advance=false` — and `current_step` advances by 1; only the
no-fabrication half of the original claim holds: nothing is appended to
`effectiveness_ratings`. -/
theorem c2_amended (retr : Retriever) (fs : FlowState) (input : String)
    (h6 : fs.current_step = 6)
    (hc : detect_crisis_keywords input = false)
    (hr : extract_anxiety_rating input = none) :
    (acuteProcessUserInput retr fs input).2.advance_step = some true
    ∧ (acuteProcessUserInput retr fs input).2.message =
        "Continuing with Acute Anxiety Support - step 7"
    ∧ (acuteProcessUserInput retr fs input).1.current_step = 7
    ∧ (acuteProcessUserInput retr fs input).1.effectiveness_ratings
        = fs.effectiveness_ratings := by
  refine ⟨?_, ?_, ?_, ?_⟩ <;>
    · unfold acuteProcessUserInput acuteProcessClinicalStep acuteStep6
        acuteFallback get_current_step_response
      simp [hc, h6, hr, acute_anxiety_steps]
      try decide

/-- C2 witness: the spec example input at the effectiveness-check step. -/
theorem c2_witness :
    detect_crisis_keywords ("I don\x27t know") = false
    ∧ extract_anxiety_rating ("I don\x27t know") = none
    ∧ (acuteProcessUserInput trivRetriever { current_step := 6 }
        ("I don\x27t know")).2.advance_step = some true :=
  ⟨by decide, by decide,
    (c2_amended trivRetriever { current_step := 6 } ("I don\x27t know") rfl
      (by decide) (by decide)).1⟩

/-- C2 counterexample: at step 6 with no crisis match and no parseable
rating, the reply advances (`advance_step = True`) and `current_step` moves
from 6 to 7, refuting `advance=false` with `current_step` unchanged. -/
theorem c2_counterexample :
    (acuteProcessUserInput trivRetriever { current_step := 6 }
      ("I don\x27t know")).2.advance_step = some true
    ∧ (acuteProcessUserInput trivRetriever { current_step := 6 }
      ("I don\x27t know")).1.current_step = 7
    ∧ (acuteProcessUserInput trivRetriever { current_step := 6 }
      ("I don\x27t know")).1.effectiveness_ratings = [] := by
  decide

/-- C7 amended: a `process_user_input` call with `current_step ≥ len(steps)`
does return the completion reply, but the call is not mutation-free: a new
response record keyed `current_step` with intervention tag `completed` is
stored, `current_step` increments once more (the completion dict has no
`advance_step` key and the default is True), and the completion status is
(re)set — the "no further mutation" part of the original claim fails while
the "returns the completion reply" part holds. -/
theorem c7_amended (retr : Retriever) (fs : FlowState) (input : String)
    (h : acute_anxiety_steps.length ≤ fs.current_step)
    (hc : detect_crisis_keywords input = false) :
    (acuteProcessUserInput retr fs input).2.flow_completed = some true
    ∧ (acuteProcessUserInput retr fs input).1.current_step = fs.current_step + 1
    ∧ (acuteProcessUserInput retr fs input).1.user_responses
        = updateAssoc fs.user_responses fs.current_step
            ⟨input, true, "completed"⟩
    ∧ (acuteProcessUserInput retr fs input).1.completion_status = "completed" := by
  have key : (acuteProcessUserInput retr fs input).1
      = { fs with
          current_step := fs.current_step + 1,
          user_responses := updateAssoc fs.user_responses fs.current_step
            ⟨input, true, "completed"⟩,
          completion_status := "completed" } := by
    unfold acuteProcessUserInput
    simp only [hc, Bool.false_eq_true, if_false]
    have hlt : ¬ (fs.current_step < acute_anxiety_steps.length) := by omega
    simp only [hlt, if_false]
    rw [acuteStep_completion_advance retr
          { fs with user_responses :=
              (updateAssoc fs.user_responses fs.current_step
                ⟨input, true, "completed"⟩) } input h,
        acuteStep_completion_state retr
          { fs with user_responses :=
              (updateAssoc fs.user_responses fs.current_step
                ⟨input, true, "completed"⟩) } input h]
    rfl
  refine ⟨acuteProcess_completed_of_ge retr fs input hc h, ?_, ?_, ?_⟩ <;>
    rw [key]

/-- C7 witness: a duplicate call on a finished panic flow. -/
theorem c7_witness :
    acute_anxiety_steps.length ≤ ({ current_step := 7 } : FlowState).current_step
    ∧ detect_crisis_keywords ("done") = false
    ∧ (acuteProcessUserInput trivRetriever { current_step := 7 }
        ("done")).2.flow_completed = some true :=
  ⟨by decide, by decide,
    (c7_amended trivRetriever { current_step := 7 } ("done") (by decide)
      (by decide)).1⟩

/-- C7 counterexample: the duplicate call at `current_step = 7 = len(steps)`
stores a fresh response record and moves `current_step` to 8, refuting "no
new response record is stored, `current_step` does not change". -/
theorem c7_counterexample :
    (acuteProcessUserInput trivRetriever { current_step := 7 }
      ("again")).1.current_step = 8
    ∧ (acuteProcessUserInput trivRetriever { current_step := 7 }
      ("again")).1.user_responses = [(7, ⟨"again", true, "completed"⟩)] := by
  decide

/-! ## Claim C4 -/

/-- C4 amended: on a reply indicating completion, `process_clinical_response`
archives an outcome snapshot and clears the active slot; but on a crisis
input the active flow is merely deleted — the slot is cleared with no
outcome snapshot appended to the history. -/
theorem c4_amended (retr : Retriever) (lookup : Except Unit (List RagItem))
    (st : ManagerUserState) (input : String) (fd : ActiveFlowData)
    (h : st.active = some fd) :
    (detect_crisis_keywords input = true →
      (process_clinical_response retr lookup st input).1.active = none
      ∧ (process_clinical_response retr lookup st input).1.outcomes = st.outcomes)
    ∧ (detect_crisis_keywords input = false →
      ((process_clinical_response retr lookup st input).2.flow_completed.getD false
        || (process_clinical_response retr lookup st input).2.crisis_override.getD false)
        = true →
      (process_clinical_response retr lookup st input).1.active = none
      ∧ ∃ snap, (process_clinical_response retr lookup st input).1.outcomes
          = st.outcomes ++ [snap]) := by
  constructor
  · intro hc
    unfold process_clinical_response
    simp [hc, activate_crisis_override]
  · intro hc hdone
    unfold process_clinical_response at hdone ⊢
    simp only [hc, Bool.false_eq_true, if_false, h] at hdone ⊢
    rw [if_pos hdone]
    simp [complete_clinical_session]

/-- C4 witness: a completion reply archives and clears the slot. -/
theorem c4_witness :
    ({ active := some ⟨{ current_step := 7 }, "acute_anxiety_flow"⟩,
       outcomes := [] } : ManagerUserState).active
      = some ⟨{ current_step := 7 }, "acute_anxiety_flow"⟩
    ∧ detect_crisis_keywords ("done") = false
    ∧ ((process_clinical_response trivRetriever (Except.error ())
        { active := some ⟨{ current_step := 7 }, "acute_anxiety_flow"⟩,
          outcomes := [] } ("done")).2.flow_completed.getD false
      || (process_clinical_response trivRetriever (Except.error ())
        { active := some ⟨{ current_step := 7 }, "acute_anxiety_flow"⟩,
          outcomes := [] } ("done")).2.crisis_override.getD false) = true
    ∧ (process_clinical_response trivRetriever (Except.error ())
        { active := some ⟨{ current_step := 7 }, "acute_anxiety_flow"⟩,
          outcomes := [] } ("done")).1.active = none :=
  ⟨rfl, by decide, by decide,
    ((c4_amended trivRetriever (Except.error ())
      { active := some ⟨{ current_step := 7 }, "acute_anxiety_flow"⟩,
        outcomes := [] } ("done") ⟨{ current_step := 7 }, "acute_anxiety_flow"⟩
      rfl).2 (by decide) (by decide)).1⟩

/-- C4 counterexample: a crisis input on an active mid-flight flow clears
the active slot but archives nothing — the outcome history stays empty,
refuting "finalized and archived, not merely deleted". -/
theorem c4_counterexample :
    (process_clinical_response trivRetriever (Except.error ())
        { active := some ⟨{ current_step := 3 }, "acute_anxiety_flow"⟩,
          outcomes := [] } ("I want to die")).1
      = { active := none, outcomes := [] } := by
  decide

/-! ## Claim C5 -/

/-- C5 amended: `start_clinical_flow` for a user with an active flow (valid
flow name, no crisis in the context) silently replaces the active flow with
the freshly started instance: no outcome snapshot of the interrupted flow is
recorded, and no `abandoned` status exists anywhere in the manager. -/
theorem c5_amended (lookup : Except Unit (List RagItem))
    (st : ManagerUserState) (name : String) (ctx : ClinicalContext)
    (fd : ActiveFlowData) (h : st.active = some fd)
    (hn : clinical_flow_registry_names.contains name = true)
    (hc : contextTextCrisis ctx = false) :
    (start_clinical_flow lookup st name ctx).1.outcomes = st.outcomes
    ∧ (start_clinical_flow lookup st name ctx).1.active
        = some ⟨(acuteStartFlow ctx).1, name⟩ := by
  have hmem : name ∈ clinical_flow_registry_names := by simpa using hn
  unfold start_clinical_flow
  simp [hc, hmem]

/-- C5 witness: overwriting an active mid-flight flow. -/
theorem c5_witness :
    ({ active := some ⟨{ current_step := 3 }, "acute_anxiety_flow"⟩,
       outcomes := [] } : ManagerUserState).active
      = some ⟨{ current_step := 3 }, "acute_anxiety_flow"⟩
    ∧ clinical_flow_registry_names.contains ("panic_flow") = true
    ∧ contextTextCrisis {} = false
    ∧ (start_clinical_flow (Except.error ())
        { active := some ⟨{ current_step := 3 }, "acute_anxiety_flow"⟩,
          outcomes := [] } ("panic_flow") {}).1.outcomes = [] :=
  ⟨rfl, by decide, by decide,
    (c5_amended (Except.error ())
      { active := some ⟨{ current_step := 3 }, "acute_anxiety_flow"⟩,
        outcomes := [] } ("panic_flow") {}
      ⟨{ current_step := 3 }, "acute_anxiety_flow"⟩ rfl (by decide)
      (by decide)).1⟩

/-- C5 counterexample: starting a new flow over an active one leaves the
outcome history empty and the old instance gone, refuting "the existing
flow is first finalized and archived (status abandoned) before the new
instance is stored". -/
theorem c5_counterexample :
    (start_clinical_flow (Except.error ())
        { active := some ⟨{ current_step := 3 }, "acute_anxiety_flow"⟩,
          outcomes := [] } ("panic_flow") {}).1
      = { active := some ⟨{}, "panic_flow"⟩, outcomes := [] } := by
  decide

/-! ## Claim C6 -/

/-- C6 amended: the completion reply built by `complete_clinical_flow` uses
`completion_rate = min(current_step, total)/total`, the intervention prefix
up to `current_step`, and `success ↔ rate ≥ 0.8 ∧ no safety flags`; but the
outcome snapshot archived by `complete_clinical_session` and the status
report of `get_clinical_flow_status` use `min(current_step + 1, total)/total`
and the prefix up to `current_step + 1` — the call sites do not apply one
formula. -/
theorem c6_amended (fs : FlowState) (st : ManagerUserState)
    (fd : ActiveFlowData) (h : st.active = some fd) :
    ((complete_clinical_flow ("Acute Anxiety Support") ("panic") ("high")
        acute_anxiety_steps fs).2.clinical_outcomes.map
        ClinicalOutcomes.completion_rate
      = some ((min fs.current_step acute_anxiety_steps.length : ℚ)
          / (acute_anxiety_steps.length : ℚ)))
    ∧ ((complete_clinical_flow ("Acute Anxiety Support") ("panic") ("high")
        acute_anxiety_steps fs).2.clinical_outcomes.map
        ClinicalOutcomes.techniques_used
      = some ((acute_anxiety_steps.take fs.current_step).map
          StepSpec.intervention))
    ∧ ((complete_clinical_flow ("Acute Anxiety Support") ("panic") ("high")
        acute_anxiety_steps fs).2.session_summary.map
        SessionSummary.clinical_success = some true
      ↔ ((8 : ℚ)/10 ≤ (min fs.current_step acute_anxiety_steps.length : ℚ)
            / (acute_anxiety_steps.length : ℚ)
          ∧ fs.safety_flags = []))
    ∧ ((complete_clinical_session st).outcomes.map OutcomeSnapshot.completion_rate
      = st.outcomes.map OutcomeSnapshot.completion_rate
        ++ [(min (fd.flow_state.current_step + 1) acute_anxiety_steps.length : ℚ)
            / (acute_anxiety_steps.length : ℚ)])
    ∧ ((complete_clinical_session st).outcomes.map OutcomeSnapshot.techniques_used
      = st.outcomes.map OutcomeSnapshot.techniques_used
        ++ [(acute_anxiety_steps.take (fd.flow_state.current_step + 1)).map
            StepSpec.intervention])
    ∧ ((complete_clinical_session st).outcomes.map OutcomeSnapshot.clinical_success
      = st.outcomes.map OutcomeSnapshot.clinical_success
        ++ [decide ((8 : ℚ)/10 ≤
              (min (fd.flow_state.current_step + 1) acute_anxiety_steps.length : ℚ)
              / (acute_anxiety_steps.length : ℚ))
            && fd.flow_state.safety_flags.isEmpty])
    ∧ ((get_clinical_flow_status st).map FlowStatus.completion_rate
      = some ((min (fd.flow_state.current_step + 1) acute_anxiety_steps.length : ℚ)
          / (acute_anxiety_steps.length : ℚ))) := by
  have hlen : acute_anxiety_steps.length = 7 := by decide
  refine ⟨?_, ?_, ?_, ?_, ?_, ?_, ?_⟩
  · simp [complete_clinical_flow, hlen]
  · simp [complete_clinical_flow, hlen]
  · simp [complete_clinical_flow, hlen, List.isEmpty_iff]
  · simp [complete_clinical_session, h, hlen]
  · simp [complete_clinical_session, h, hlen]
  · simp [complete_clinical_session, h, hlen]
  · simp [get_clinical_flow_status, h, hlen]

/-- C6 witness: the same mid-flight state archived through the two sites. -/
theorem c6_witness :
    ({ active := some ⟨{ current_step := 0 }, "acute_anxiety_flow"⟩,
       outcomes := [] } : ManagerUserState).active
      = some ⟨{ current_step := 0 }, "acute_anxiety_flow"⟩
    ∧ (complete_clinical_flow ("Acute Anxiety Support") ("panic") ("high")
        acute_anxiety_steps { current_step := 0 }).2.clinical_outcomes.map
        ClinicalOutcomes.completion_rate
      = some ((min ({ current_step := 0 } : FlowState).current_step
          acute_anxiety_steps.length : ℚ) / (acute_anxiety_steps.length : ℚ)) :=
  ⟨rfl,
    (c6_amended { current_step := 0 }
      { active := some ⟨{ current_step := 0 }, "acute_anxiety_flow"⟩,
        outcomes := [] }
      ⟨{ current_step := 0 }, "acute_anxiety_flow"⟩ rfl).1⟩

/-- C6 counterexample: at `current_step = 0` the completion reply reports
rate 0 while the archived snapshot of the same state reports 1/7 — the two
call sites do not compute the same `completion_rate`. -/
theorem c6_counterexample :
    ((complete_clinical_flow ("Acute Anxiety Support") ("panic") ("high")
        acute_anxiety_steps { current_step := 0 }).2.clinical_outcomes.map
        ClinicalOutcomes.completion_rate = some 0)
    ∧ ((complete_clinical_session
        { active := some ⟨{ current_step := 0 }, "acute_anxiety_flow"⟩,
          outcomes := [] }).outcomes.map OutcomeSnapshot.completion_rate
      = [1/7])
    ∧ (0 : ℚ) ≠ 1/7 := by
  have hlen : acute_anxiety_steps.length = 7 := by decide
  refine ⟨?_, ?_, by norm_num⟩
  · simp [complete_clinical_flow, hlen]
  · simp [complete_clinical_session, hlen]

/-! ## Claim C3 -/

/-- C3: every crisis reply — from the manager override, for every outcome of
the ContentSource lookup including an exception, and from the base flow
protocol — contains the three core resources with name and contact
(emergency services, 24/7 crisis text line, suicide prevention line), a flag
disabling free-form continuation, the immediate-escalation flag, and the
`flow_type = crisis_override` tag. -/
theorem c3_crisis_reply_core (lookup : Except Unit (List RagItem))
    (st : ManagerUserState) (fs : FlowState) :
    ((activate_crisis_override lookup st).2.flow_type = some "crisis_override"
      ∧ (activate_crisis_override lookup st).2.disable_free_form_responses = some true
      ∧ (activate_crisis_override lookup st).2.immediate_escalation = some true
      ∧ (∃ r ∈ (activate_crisis_override lookup st).2.crisis_resources,
          r.name = "Emergency Services" ∧ r.contact = some "911")
      ∧ (∃ r ∈ (activate_crisis_override lookup st).2.crisis_resources,
          r.name = "Crisis Text Line" ∧ r.contact = some "Text HOME to 741741")
      ∧ (∃ r ∈ (activate_crisis_override lookup st).2.crisis_resources,
          r.name = "National Suicide Prevention Lifeline" ∧ r.contact = some "988"))
    ∧ ((activate_crisis_protocol fs).2.flow_type = some "crisis_override"
      ∧ (activate_crisis_protocol fs).2.disable_free_form = some true
      ∧ (activate_crisis_protocol fs).2.immediate_escalation = some true
      ∧ (∃ r ∈ (activate_crisis_protocol fs).2.crisis_resources,
          r.name = "Emergency Services" ∧ r.contact = some "911")
      ∧ (∃ r ∈ (activate_crisis_protocol fs).2.crisis_resources,
          r.name = "Crisis Text Line" ∧ r.contact = some "Text HOME to 741741")
      ∧ (∃ r ∈ (activate_crisis_protocol fs).2.crisis_resources,
          r.name = "National Suicide Prevention Lifeline" ∧ r.contact = some "988")) := by
  refine ⟨⟨rfl, rfl, rfl, ?_, ?_, ?_⟩, ⟨rfl, rfl, rfl, ?_, ?_, ?_⟩⟩
  · exact ⟨⟨"Emergency Services", some "911", none, some "For immediate emergency response", some "highest", none⟩, List.mem_append_left _ (by decide), rfl, rfl⟩
  · exact ⟨⟨"Crisis Text Line", some "Text HOME to 741741", none, some "24/7 text-based crisis support", some "highest", none⟩, List.mem_append_left _ (by decide), rfl, rfl⟩
  · exact ⟨⟨"National Suicide Prevention Lifeline", some "988", none, some "Free, confidential 24/7 support", some "highest", none⟩, List.mem_append_left _ (by decide), rfl, rfl⟩
  · exact ⟨⟨"Emergency Services", some "911", some "Immediate emergency response", none, none, none⟩, by simp [activate_crisis_protocol], rfl, rfl⟩
  · exact ⟨⟨"Crisis Text Line", some "Text HOME to 741741", some "24/7", none, none, none⟩, by simp [activate_crisis_protocol], rfl, rfl⟩
  · exact ⟨⟨"National Suicide Prevention Lifeline", some "988", some "24/7", none, none, none⟩, by simp [activate_crisis_protocol], rfl, rfl⟩

end AnxietyBot
